import Mathlib

/-!
Verification of the data-access shim in `server/app/src/data_sources.rs` of
GiganticMinecraft/SeichiGameAPI.

The shim maps five fixed SQL queries over the `playerdata` table into typed
records.  We embed the row-to-record projection of each fetcher as a pure
function from a list of decoded rows (the store's response) to
`Except DecodeError (List Record)`, mirroring sqlx's `try_map` + `fetch_all`
(decode each row in order, abort on the first failure).  Numeric coercions are
embedded exactly: the Rust cast `i32 as u64` (sign-extension, i.e. reduction
modulo 2^64), `f64::round` (round half away from zero) followed by the
saturating float-to-integer cast `as u64`, and chrono's `to_rfc3339` textual
encoding of a UTC timestamp.  Machine doubles are modelled as exact rationals
plus the three non-finite shapes; the rounding and casting steps of the source
are exact on these values, so the model loses nothing.
-/

/-- Identity record shared by all five record kinds (from `domain::models`,
described by the spec: `uuid` and `last_known_name`, both opaque text). -/
structure Player where
  uuid : String
  last_known_name : String
deriving Repr, DecidableEq

/-- Player plus last-disconnect time encoded as RFC 3339 text. -/
structure PlayerLastQuit where
  player : Player
  rfc_3339_date_time : String
deriving Repr, DecidableEq

/-- Player plus unsigned 64-bit block-break count. -/
structure PlayerBreakCount where
  player : Player
  break_count : Nat
deriving Repr, DecidableEq

/-- Player plus unsigned 64-bit build count. -/
structure PlayerBuildCount where
  player : Player
  build_count : Nat
deriving Repr, DecidableEq

/-- Player plus unsigned 64-bit played-tick count. -/
structure PlayerPlayTicks where
  player : Player
  play_ticks : Nat
deriving Repr, DecidableEq

/-- Player plus unsigned 64-bit vote count. -/
structure PlayerVoteCount where
  player : Player
  vote_count : Nat
deriving Repr, DecidableEq

/-- A machine double, modelled as an exact rational in the finite case plus
the non-finite shapes.  Every finite IEEE-754 double is an exact rational, and
the operations the source applies (`round`, cast to `u64`) are exact, so this
model is faithful on all inputs the source can see. -/
inductive F64 where
  | finite (q : ℚ)
  | nan
  | posInf
  | negInf
deriving Repr, DecidableEq

/-- A UTC timestamp as decoded by sqlx from a MySQL `datetime` column, given by
its calendar components (MySQL `datetime` has no sub-second part at precision
0, and chrono re-derives exactly these components when formatting). -/
structure DateTimeUtc where
  year : Nat
  month : Nat
  day : Nat
  hour : Nat
  minute : Nat
  second : Nat
deriving Repr, DecidableEq

/-- Gregorian leap-year test. -/
def isLeapYear (y : Nat) : Bool :=
  (y % 4 == 0 && y % 100 != 0) || (y % 400 == 0)

/-- Number of days in a month of the proleptic Gregorian calendar. -/
def daysInMonth (y m : Nat) : Nat :=
  if m = 2 then (if isLeapYear y then 29 else 28)
  else if m = 4 ∨ m = 6 ∨ m = 9 ∨ m = 11 then 30
  else 31

/-- The component ranges every timestamp decoded from a MySQL `datetime`
column satisfies (MySQL stores years 1000-9999; we only need 0-9999 for the
four-digit textual form). -/
def DateTimeUtc.isValid (t : DateTimeUtc) : Bool :=
  decide (t.year ≤ 9999) && decide (1 ≤ t.month) && decide (t.month ≤ 12) &&
  decide (1 ≤ t.day) && decide (t.day ≤ daysInMonth t.year t.month) &&
  decide (t.hour ≤ 23) && decide (t.minute ≤ 59) && decide (t.second ≤ 59)

/-- The decimal digit character for `n % 10`. -/
def digitChar (n : Nat) : Char :=
  (['0', '1', '2', '3', '4', '5', '6', '7', '8', '9']).getD (n % 10) '0'

/-- chrono's `DateTime::<Utc>::to_rfc3339` on a timestamp with zero sub-second
part: zero-padded `YYYY-MM-DDTHH:MM:SS` followed by the explicit UTC offset
`+00:00` (chrono prints the numeric offset for `Utc`, never `Z`). -/
def DateTimeUtc.to_rfc3339 (t : DateTimeUtc) : String :=
  String.mk
    [digitChar (t.year / 1000), digitChar (t.year / 100), digitChar (t.year / 10), digitChar t.year,
     '-', digitChar (t.month / 10), digitChar t.month,
     '-', digitChar (t.day / 10), digitChar t.day,
     'T', digitChar (t.hour / 10), digitChar t.hour,
     ':', digitChar (t.minute / 10), digitChar t.minute,
     ':', digitChar (t.second / 10), digitChar t.second] ++ "+00:00"

/-- The Rust integer cast `i32 as u64`: sign-extension to 64 bits followed by
two's-complement reinterpretation.  Applied by the play-ticks and vote-count
fetchers to the `playtick` / `p_vote` columns. -/
def i32_as_u64 (v : Int) : Nat :=
  if 0 ≤ v then v.toNat else 2 ^ 64 - (-v).toNat

/-- Rust's `f64::round`: round half away from zero, exact on finite values and
the identity on the non-finite shapes. -/
def roundHalfAwayFromZero (q : ℚ) : Int :=
  if 0 ≤ q then ⌊q + 1 / 2⌋ else ⌈q - 1 / 2⌉

/-- `F64.round` lifts `roundHalfAwayFromZero` to doubles. -/
def F64.round : F64 → F64
  | .finite q => .finite ((roundHalfAwayFromZero q : ℤ) : ℚ)
  | x => x

/-- The Rust cast `f64 as u64`: truncate toward zero and saturate — NaN and
every value below 0 give 0, every value at or above 2^64 gives `u64::MAX`; the
cast never wraps and never traps. -/
def F64.as_u64 : F64 → Nat
  | .nan => 0
  | .negInf => 0
  | .posInf => 2 ^ 64 - 1
  | .finite q =>
      if q < 0 then 0
      else if (2 : ℚ) ^ 64 ≤ q then 2 ^ 64 - 1
      else (⌊q⌋).toNat

/-- The build-count metric coercion of the source: `x.round() as u64`. -/
def buildCountCoercion (x : F64) : Nat :=
  (F64.round x).as_u64

/-- A column value as decoded from the MySQL wire protocol. -/
inductive DbValue where
  | vStr (s : String)
  | vU64 (n : Nat)
  | vI32 (v : Int)
  | vF64 (x : F64)
  | vDateTime (t : DateTimeUtc)
  | vNull
deriving Repr, DecidableEq

/-- A row of the result set: named column values in wire order. -/
def DbRow : Type := List (String × DbValue)

/-- The decoding failures sqlx's `Row::try_get` can report. -/
inductive DecodeError where
  | columnNotFound (c : String)
  | unexpectedNull (c : String)
  | typeMismatch (c : String)
deriving Repr, DecidableEq

/-- Lookup of a named column in a row. -/
def findColumn (row : DbRow) (c : String) : Option DbValue :=
  (row.find? (fun p => p.1 == c)).map (fun p => p.2)

/-- `row.try_get::<String>(c)`. -/
def tryGetStr (row : DbRow) (c : String) : Except DecodeError String :=
  match findColumn row c with
  | none => .error (.columnNotFound c)
  | some (.vStr s) => .ok s
  | some .vNull => .error (.unexpectedNull c)
  | some _ => .error (.typeMismatch c)

/-- `row.try_get::<u64>(c)` (the break-count metric column). -/
def tryGetU64 (row : DbRow) (c : String) : Except DecodeError Nat :=
  match findColumn row c with
  | none => .error (.columnNotFound c)
  | some (.vU64 n) => .ok n
  | some .vNull => .error (.unexpectedNull c)
  | some _ => .error (.typeMismatch c)

/-- `row.try_get::<i32>(c)`. -/
def tryGetI32 (row : DbRow) (c : String) : Except DecodeError Int :=
  match findColumn row c with
  | none => .error (.columnNotFound c)
  | some (.vI32 v) => .ok v
  | some .vNull => .error (.unexpectedNull c)
  | some _ => .error (.typeMismatch c)

/-- `row.try_get::<f64>(c)`. -/
def tryGetF64 (row : DbRow) (c : String) : Except DecodeError F64 :=
  match findColumn row c with
  | none => .error (.columnNotFound c)
  | some (.vF64 x) => .ok x
  | some .vNull => .error (.unexpectedNull c)
  | some _ => .error (.typeMismatch c)

/-- `row.try_get::<DateTime<Utc>>(c)`. -/
def tryGetDateTime (row : DbRow) (c : String) : Except DecodeError DateTimeUtc :=
  match findColumn row c with
  | none => .error (.columnNotFound c)
  | some (.vDateTime t) => .ok t
  | some .vNull => .error (.unexpectedNull c)
  | some _ => .error (.typeMismatch c)

/-- Row closure of the `PlayerLastQuit` fetcher: reads `uuid`, `name`,
`lastquit` and re-encodes the timestamp as RFC 3339 text. -/
def decodePlayerLastQuit (row : DbRow) : Except DecodeError PlayerLastQuit := do
  let uuid ← tryGetStr row "uuid"
  let name ← tryGetStr row "name"
  let lastquit ← tryGetDateTime row "lastquit"
  pure { player := { uuid := uuid, last_known_name := name },
         rfc_3339_date_time := lastquit.to_rfc3339 }

/-- Row closure of the `PlayerBreakCount` fetcher: reads `uuid`, `name`,
`totalbreaknum`; the metric passes through unchanged. -/
def decodePlayerBreakCount (row : DbRow) : Except DecodeError PlayerBreakCount := do
  let uuid ← tryGetStr row "uuid"
  let name ← tryGetStr row "name"
  let n ← tryGetU64 row "totalbreaknum"
  pure { player := { uuid := uuid, last_known_name := name }, break_count := n }

/-- Row closure of the `PlayerBuildCount` fetcher: reads `uuid`, `name`,
`build_count`; the metric is `row value .round() as u64`. -/
def decodePlayerBuildCount (row : DbRow) : Except DecodeError PlayerBuildCount := do
  let uuid ← tryGetStr row "uuid"
  let name ← tryGetStr row "name"
  let x ← tryGetF64 row "build_count"
  pure { player := { uuid := uuid, last_known_name := name },
         build_count := buildCountCoercion x }

/-- Row closure of the `PlayerPlayTicks` fetcher: reads `uuid`, `name`,
`playtick`; the metric is the Rust cast `i32 as u64`. -/
def decodePlayerPlayTicks (row : DbRow) : Except DecodeError PlayerPlayTicks := do
  let uuid ← tryGetStr row "uuid"
  let name ← tryGetStr row "name"
  let v ← tryGetI32 row "playtick"
  pure { player := { uuid := uuid, last_known_name := name },
         play_ticks := i32_as_u64 v }

/-- Row closure of the `PlayerVoteCount` fetcher: reads `uuid`, `name`,
`p_vote`; the metric is the Rust cast `i32 as u64`. -/
def decodePlayerVoteCount (row : DbRow) : Except DecodeError PlayerVoteCount := do
  let uuid ← tryGetStr row "uuid"
  let name ← tryGetStr row "name"
  let v ← tryGetI32 row "p_vote"
  pure { player := { uuid := uuid, last_known_name := name },
         vote_count := i32_as_u64 v }

/-- sqlx's `try_map` + `fetch_all`: decode every row of the result set in wire
order, aborting the whole fetch at the first row whose decoding fails. -/
def tryMapAll {α : Type} (f : DbRow → Except DecodeError α) :
    List DbRow → Except DecodeError (List α)
  | [] => .ok []
  | r :: rs => do
      let a ← f r
      let rest ← tryMapAll f rs
      pure (a :: rest)

/-- `VecDataSource<PlayerLastQuit>::fetch`, as a function of the store's
response. -/
def fetchPlayerLastQuit (rows : List DbRow) : Except DecodeError (List PlayerLastQuit) :=
  tryMapAll decodePlayerLastQuit rows

/-- `VecDataSource<PlayerBreakCount>::fetch`, as a function of the store's
response. -/
def fetchPlayerBreakCount (rows : List DbRow) : Except DecodeError (List PlayerBreakCount) :=
  tryMapAll decodePlayerBreakCount rows

/-- `VecDataSource<PlayerBuildCount>::fetch`, as a function of the store's
response. -/
def fetchPlayerBuildCount (rows : List DbRow) : Except DecodeError (List PlayerBuildCount) :=
  tryMapAll decodePlayerBuildCount rows

/-- `VecDataSource<PlayerPlayTicks>::fetch`, as a function of the store's
response. -/
def fetchPlayerPlayTicks (rows : List DbRow) : Except DecodeError (List PlayerPlayTicks) :=
  tryMapAll decodePlayerPlayTicks rows

/-- `VecDataSource<PlayerVoteCount>::fetch`, as a function of the store's
response. -/
def fetchPlayerVoteCount (rows : List DbRow) : Except DecodeError (List PlayerVoteCount) :=
  tryMapAll decodePlayerVoteCount rows

/-- The record at a given position carries exactly the `(uuid, name)` pair of
the row at the same position. -/
def identityPreserved (row : DbRow) (p : Player) : Prop :=
  tryGetStr row "uuid" = .ok p.uuid ∧ tryGetStr row "name" = .ok p.last_known_name

/-- A complete two-row response used to witness C3 and C10 concretely. -/
def sampleRow1 : DbRow :=
  [("uuid", DbValue.vStr "u1"), ("name", DbValue.vStr "n1"),
   ("lastquit", DbValue.vDateTime ⟨2020, 1, 2, 3, 4, 5⟩),
   ("totalbreaknum", DbValue.vU64 7), ("build_count", DbValue.vF64 (.finite 2)),
   ("playtick", DbValue.vI32 3), ("p_vote", DbValue.vI32 4)]

/-- Second sample row, distinct identity from `sampleRow1`. -/
def sampleRow2 : DbRow :=
  [("uuid", DbValue.vStr "u2"), ("name", DbValue.vStr "n2"),
   ("lastquit", DbValue.vDateTime ⟨1999, 12, 31, 23, 59, 58⟩),
   ("totalbreaknum", DbValue.vU64 8), ("build_count", DbValue.vF64 (.finite 3)),
   ("playtick", DbValue.vI32 5), ("p_vote", DbValue.vI32 6)]

/-- Decimal value of a digit character. -/
def digitVal (c : Char) : Nat := c.toNat - 48

/-- RFC 3339 `time-offset`: the literal `Z` or `("+" / "-") time-hour ":"
time-minute` with the hour at most 23 and the minute at most 59. -/
def isRfc3339Offset (cs : List Char) : Bool :=
  match cs with
  | ['Z'] => true
  | [sign, a, b, ':', c, d] =>
      (sign == '+' || sign == '-') &&
      a.isDigit && b.isDigit && c.isDigit && d.isDigit &&
      decide (10 * digitVal a + digitVal b ≤ 23) &&
      decide (10 * digitVal c + digitVal d ≤ 59)
  | _ => false

/-- Grammar-and-range check for an RFC 3339 `date-time` without fractional
seconds: `date-fullyear "-" date-month "-" date-mday "T" time-hour ":"
time-minute ":" time-second time-offset`, with the month in 01-12, the day
within the month's length for the year, the hour at most 23, the minute at
most 59 and the second at most 60 (leap second).  Every string this accepts
is a valid RFC 3339 `date-time`. -/
def isRfc3339DateTime (s : String) : Bool :=
  match s.data with
  | y1 :: y2 :: y3 :: y4 :: '-' :: mo1 :: mo2 :: '-' :: d1 :: d2 ::
      'T' :: h1 :: h2 :: ':' :: mi1 :: mi2 :: ':' :: s1 :: s2 :: offs =>
      y1.isDigit && y2.isDigit && y3.isDigit && y4.isDigit &&
      mo1.isDigit && mo2.isDigit && d1.isDigit && d2.isDigit &&
      h1.isDigit && h2.isDigit && mi1.isDigit && mi2.isDigit &&
      s1.isDigit && s2.isDigit &&
      (let year := 1000 * digitVal y1 + 100 * digitVal y2 + 10 * digitVal y3 + digitVal y4
       let month := 10 * digitVal mo1 + digitVal mo2
       let day := 10 * digitVal d1 + digitVal d2
       decide (1 ≤ month) && decide (month ≤ 12) && decide (1 ≤ day) &&
       decide (day ≤ daysInMonth year month) &&
       decide (10 * digitVal h1 + digitVal h2 ≤ 23) &&
       decide (10 * digitVal mi1 + digitVal mi2 ≤ 59) &&
       decide (10 * digitVal s1 + digitVal s2 ≤ 60)) &&
      isRfc3339Offset offs
  | _ => false

/-- Modelled from the spec: `SourceDatabaseConfig` (defined in
`crate::config`, which is outside the excerpted sources) carries the five
configuration inputs named in section 6 of the design: host, port, user,
password, database name.  The source reads the numeric port as
`config.port.0`. -/
structure SourceDatabaseConfig where
  host : String
  port : Nat
  user : String
  password : String
  database_name : String
deriving Repr, DecidableEq

/-- The pure content of a created pool: its fixed connection cap and the
connection URI the source builds.  Opening sockets is I/O and outside the
embedding. -/
structure ConnectionPool where
  max_connections : Nat
  uri : String
deriving Repr, DecidableEq

/-- `create_connection_pool`: cap `MAX_CONNS = 5` and the URI from the
`format!` string `mysql://{user}:{pass}@{host}:{port}/{db}`. -/
def create_connection_pool (config : SourceDatabaseConfig) : ConnectionPool :=
  { max_connections := 5,
    uri := "mysql://" ++ config.user ++ ":" ++ config.password ++ "@" ++
      config.host ++ ":" ++ toString config.port ++ "/" ++ config.database_name }

/-- `MySqlDataSource`: a struct holding nothing but the bound pool. -/
structure MySqlDataSource where
  connection_pool : ConnectionPool
deriving Repr, DecidableEq

/-- `last_quit_data_source`: creates a pool from the config and binds it. -/
def last_quit_data_source (config : SourceDatabaseConfig) : MySqlDataSource :=
  { connection_pool := create_connection_pool config }

/-- `break_count_data_source`: creates a pool from the config and binds it. -/
def break_count_data_source (config : SourceDatabaseConfig) : MySqlDataSource :=
  { connection_pool := create_connection_pool config }

/-- `build_count_data_source`: creates a pool from the config and binds it. -/
def build_count_data_source (config : SourceDatabaseConfig) : MySqlDataSource :=
  { connection_pool := create_connection_pool config }

/-- `play_ticks_data_source`: creates a pool from the config and binds it. -/
def play_ticks_data_source (config : SourceDatabaseConfig) : MySqlDataSource :=
  { connection_pool := create_connection_pool config }

/-- `vote_count_data_source`: creates a pool from the config and binds it. -/
def vote_count_data_source (config : SourceDatabaseConfig) : MySqlDataSource :=
  { connection_pool := create_connection_pool config }

/-- One fetch invocation against a bound data source.  `fetch` takes `&self`
(a shared, read-only borrow), so the invocation returns its output together
with the data source unchanged; the output depends only on the row closure
and the store's response. -/
def fetchInvocation {α : Type} (decode : DbRow → Except DecodeError α)
    (ds : MySqlDataSource) (rows : List DbRow) :
    Except DecodeError (List α) × MySqlDataSource :=
  (tryMapAll decode rows, ds)

/-- A sequence of fetch invocations against one bound data source, threading
the fetcher state through every call. -/
def runFetchCalls {α : Type} (decode : DbRow → Except DecodeError α) :
    MySqlDataSource → List (List DbRow) →
    List (Except DecodeError (List α)) × MySqlDataSource
  | ds, [] => ([], ds)
  | ds, resp :: rest =>
      let inv := fetchInvocation decode ds resp
      let rest' := runFetchCalls decode inv.2 rest
      (inv.1 :: rest'.1, rest'.2)

/-- A concrete bound data source used to witness C10. -/
def sampleDataSource : MySqlDataSource :=
  { connection_pool := create_connection_pool ⟨"host", 3306, "user", "pass", "db"⟩ }

/-! ### Inversion lemmas for the row closures -/

theorem decodePlayerLastQuit_ok {row : DbRow} {rec : PlayerLastQuit}
    (h : decodePlayerLastQuit row = .ok rec) :
    tryGetStr row "uuid" = .ok rec.player.uuid ∧
    tryGetStr row "name" = .ok rec.player.last_known_name ∧
    ∃ t, tryGetDateTime row "lastquit" = .ok t ∧
      rec.rfc_3339_date_time = t.to_rfc3339 := by
  cases h1 : tryGetStr row "uuid" with
  | error e => simp [decodePlayerLastQuit, h1, Except.bind, bind] at h
  | ok uuid =>
    cases h2 : tryGetStr row "name" with
    | error e => simp [decodePlayerLastQuit, h1, h2, Except.bind, bind] at h
    | ok name =>
      cases h3 : tryGetDateTime row "lastquit" with
      | error e => simp [decodePlayerLastQuit, h1, h2, h3, Except.bind, bind] at h
      | ok t =>
        simp [decodePlayerLastQuit, h1, h2, h3, Except.bind, bind, pure, Except.pure] at h
        subst h
        exact ⟨rfl, rfl, t, rfl, rfl⟩

theorem decodePlayerBreakCount_ok {row : DbRow} {rec : PlayerBreakCount}
    (h : decodePlayerBreakCount row = .ok rec) :
    tryGetStr row "uuid" = .ok rec.player.uuid ∧
    tryGetStr row "name" = .ok rec.player.last_known_name ∧
    tryGetU64 row "totalbreaknum" = .ok rec.break_count := by
  cases h1 : tryGetStr row "uuid" with
  | error e => simp [decodePlayerBreakCount, h1, Except.bind, bind] at h
  | ok uuid =>
    cases h2 : tryGetStr row "name" with
    | error e => simp [decodePlayerBreakCount, h1, h2, Except.bind, bind] at h
    | ok name =>
      cases h3 : tryGetU64 row "totalbreaknum" with
      | error e => simp [decodePlayerBreakCount, h1, h2, h3, Except.bind, bind] at h
      | ok n =>
        simp [decodePlayerBreakCount, h1, h2, h3, Except.bind, bind, pure, Except.pure] at h
        subst h
        exact ⟨rfl, rfl, rfl⟩

theorem decodePlayerBuildCount_ok {row : DbRow} {rec : PlayerBuildCount}
    (h : decodePlayerBuildCount row = .ok rec) :
    tryGetStr row "uuid" = .ok rec.player.uuid ∧
    tryGetStr row "name" = .ok rec.player.last_known_name ∧
    ∃ x, tryGetF64 row "build_count" = .ok x ∧ rec.build_count = buildCountCoercion x := by
  cases h1 : tryGetStr row "uuid" with
  | error e => simp [decodePlayerBuildCount, h1, Except.bind, bind] at h
  | ok uuid =>
    cases h2 : tryGetStr row "name" with
    | error e => simp [decodePlayerBuildCount, h1, h2, Except.bind, bind] at h
    | ok name =>
      cases h3 : tryGetF64 row "build_count" with
      | error e => simp [decodePlayerBuildCount, h1, h2, h3, Except.bind, bind] at h
      | ok x =>
        simp [decodePlayerBuildCount, h1, h2, h3, Except.bind, bind, pure, Except.pure] at h
        subst h
        exact ⟨rfl, rfl, x, rfl, rfl⟩

theorem decodePlayerPlayTicks_ok {row : DbRow} {rec : PlayerPlayTicks}
    (h : decodePlayerPlayTicks row = .ok rec) :
    tryGetStr row "uuid" = .ok rec.player.uuid ∧
    tryGetStr row "name" = .ok rec.player.last_known_name ∧
    ∃ v, tryGetI32 row "playtick" = .ok v ∧ rec.play_ticks = i32_as_u64 v := by
  cases h1 : tryGetStr row "uuid" with
  | error e => simp [decodePlayerPlayTicks, h1, Except.bind, bind] at h
  | ok uuid =>
    cases h2 : tryGetStr row "name" with
    | error e => simp [decodePlayerPlayTicks, h1, h2, Except.bind, bind] at h
    | ok name =>
      cases h3 : tryGetI32 row "playtick" with
      | error e => simp [decodePlayerPlayTicks, h1, h2, h3, Except.bind, bind] at h
      | ok v =>
        simp [decodePlayerPlayTicks, h1, h2, h3, Except.bind, bind, pure, Except.pure] at h
        subst h
        exact ⟨rfl, rfl, v, rfl, rfl⟩

theorem decodePlayerVoteCount_ok {row : DbRow} {rec : PlayerVoteCount}
    (h : decodePlayerVoteCount row = .ok rec) :
    tryGetStr row "uuid" = .ok rec.player.uuid ∧
    tryGetStr row "name" = .ok rec.player.last_known_name ∧
    ∃ v, tryGetI32 row "p_vote" = .ok v ∧ rec.vote_count = i32_as_u64 v := by
  cases h1 : tryGetStr row "uuid" with
  | error e => simp [decodePlayerVoteCount, h1, Except.bind, bind] at h
  | ok uuid =>
    cases h2 : tryGetStr row "name" with
    | error e => simp [decodePlayerVoteCount, h1, h2, Except.bind, bind] at h
    | ok name =>
      cases h3 : tryGetI32 row "p_vote" with
      | error e => simp [decodePlayerVoteCount, h1, h2, h3, Except.bind, bind] at h
      | ok v =>
        simp [decodePlayerVoteCount, h1, h2, h3, Except.bind, bind, pure, Except.pure] at h
        subst h
        exact ⟨rfl, rfl, v, rfl, rfl⟩

/-! ### Generic facts about `tryMapAll` -/

theorem tryMapAll_ok_forall₂ {α : Type} {f : DbRow → Except DecodeError α}
    {rows : List DbRow} {out : List α} (h : tryMapAll f rows = .ok out) :
    List.Forall₂ (fun r a => f r = .ok a) rows out := by
  induction rows generalizing out with
  | nil =>
    simp [tryMapAll] at h
    subst h
    exact List.Forall₂.nil
  | cons r rs ih =>
    cases h1 : f r with
    | error e => simp [tryMapAll, h1, Except.bind, bind] at h
    | ok a =>
      cases h2 : tryMapAll f rs with
      | error e => simp [tryMapAll, h1, h2, Except.bind, bind] at h
      | ok rest =>
        simp [tryMapAll, h1, h2, Except.bind, bind, pure, Except.pure] at h
        subst h
        exact List.Forall₂.cons h1 (ih h2)

theorem tryMapAll_ok_length {α : Type} {f : DbRow → Except DecodeError α}
    {rows : List DbRow} {out : List α} (h : tryMapAll f rows = .ok out) :
    out.length = rows.length :=
  (tryMapAll_ok_forall₂ h).length_eq.symm

theorem tryMapAll_error_of_mem {α : Type} {f : DbRow → Except DecodeError α}
    {rows : List DbRow} {r : DbRow} {e : DecodeError}
    (hr : r ∈ rows) (hf : f r = .error e) :
    ∃ e', tryMapAll f rows = .error e' := by
  induction rows with
  | nil => cases hr
  | cons r0 rs ih =>
    rcases List.mem_cons.mp hr with h0 | h0
    · subst h0
      exact ⟨e, by simp [tryMapAll, hf, Except.bind, bind]⟩
    · cases h1 : f r0 with
      | error e0 => exact ⟨e0, by simp [tryMapAll, h1, Except.bind, bind]⟩
      | ok a =>
        rcases ih h0 with ⟨e', he'⟩
        exact ⟨e', by simp [tryMapAll, h1, he', Except.bind, bind]⟩

/-! ### Arithmetic facts about the `i32 as u64` cast -/

theorem i32_as_u64_eq_emod (v : Int) (h1 : -(2 ^ 31) ≤ v) (h2 : v < 2 ^ 31) :
    (i32_as_u64 v : Int) = v % 2 ^ 64 := by
  unfold i32_as_u64
  split <;> omega

theorem i32_as_u64_of_nonneg (v : Int) (h : 0 ≤ v) : i32_as_u64 v = v.toNat := by
  unfold i32_as_u64
  exact if_pos h

/-- C1: the play-ticks and vote-count fetchers widen the signed 32-bit source
column with Rust's `as u64` cast; for every negative in-range value `v` the
resulting metric is exactly `v` modulo 2^64, and in particular `-1` maps to
18446744073709551615. -/
theorem playTicks_voteCount_negative_input_wraps_mod_2_64 :
    (∀ (row : DbRow) (rec : PlayerPlayTicks) (v : Int),
        tryGetI32 row "playtick" = .ok v → -(2 ^ 31) ≤ v → v < 0 →
        decodePlayerPlayTicks row = .ok rec →
        (rec.play_ticks : Int) = v % 2 ^ 64) ∧
    (∀ (row : DbRow) (rec : PlayerVoteCount) (v : Int),
        tryGetI32 row "p_vote" = .ok v → -(2 ^ 31) ≤ v → v < 0 →
        decodePlayerVoteCount row = .ok rec →
        (rec.vote_count : Int) = v % 2 ^ 64) ∧
    i32_as_u64 (-1) = 18446744073709551615 := by
  refine ⟨?_, ?_, by unfold i32_as_u64; norm_num⟩
  · intro row rec v hv hlo hneg hdec
    rcases decodePlayerPlayTicks_ok hdec with ⟨-, -, v', hv', hm⟩
    rw [hv] at hv'
    cases hv'
    rw [hm]
    exact i32_as_u64_eq_emod v hlo (by omega)
  · intro row rec v hv hlo hneg hdec
    rcases decodePlayerVoteCount_ok hdec with ⟨-, -, v', hv', hm⟩
    rw [hv] at hv'
    cases hv'
    rw [hm]
    exact i32_as_u64_eq_emod v hlo (by omega)

/-- Witness for C1: a concrete row whose `playtick` column holds `-1` decodes
to the wrap-around metric 18446744073709551615, and likewise for `p_vote`. -/
theorem playTicks_voteCount_negative_input_wraps_mod_2_64_witness :
    ((⟨⟨"u", "n"⟩, 18446744073709551615⟩ : PlayerPlayTicks).play_ticks : Int) =
      (-1) % 2 ^ 64 ∧
    ((⟨⟨"u", "n"⟩, 18446744073709551615⟩ : PlayerVoteCount).vote_count : Int) =
      (-1) % 2 ^ 64 := by
  constructor
  · exact playTicks_voteCount_negative_input_wraps_mod_2_64.1
      [("uuid", DbValue.vStr "u"), ("name", DbValue.vStr "n"), ("playtick", DbValue.vI32 (-1))]
      ⟨⟨"u", "n"⟩, 18446744073709551615⟩ (-1) (by rfl) (by norm_num) (by norm_num) (by rfl)
  · exact playTicks_voteCount_negative_input_wraps_mod_2_64.2.1
      [("uuid", DbValue.vStr "u"), ("name", DbValue.vStr "n"), ("p_vote", DbValue.vI32 (-1))]
      ⟨⟨"u", "n"⟩, 18446744073709551615⟩ (-1) (by rfl) (by norm_num) (by norm_num) (by rfl)

/-- C6: the play-ticks and vote-count fetchers preserve every non-negative
signed 32-bit source value exactly under the widening cast. -/
theorem playTicks_voteCount_nonneg_input_preserved :
    (∀ (row : DbRow) (rec : PlayerPlayTicks) (v : Int),
        tryGetI32 row "playtick" = .ok v → 0 ≤ v →
        decodePlayerPlayTicks row = .ok rec →
        (rec.play_ticks : Int) = v) ∧
    (∀ (row : DbRow) (rec : PlayerVoteCount) (v : Int),
        tryGetI32 row "p_vote" = .ok v → 0 ≤ v →
        decodePlayerVoteCount row = .ok rec →
        (rec.vote_count : Int) = v) := by
  constructor
  · intro row rec v hv hnn hdec
    rcases decodePlayerPlayTicks_ok hdec with ⟨-, -, v', hv', hm⟩
    rw [hv] at hv'
    cases hv'
    rw [hm, i32_as_u64_of_nonneg v hnn]
    omega
  · intro row rec v hv hnn hdec
    rcases decodePlayerVoteCount_ok hdec with ⟨-, -, v', hv', hm⟩
    rw [hv] at hv'
    cases hv'
    rw [hm, i32_as_u64_of_nonneg v hnn]
    omega

/-- Witness for C6: a concrete row whose `playtick` / `p_vote` column holds
12345 decodes to the metric 12345. -/
theorem playTicks_voteCount_nonneg_input_preserved_witness :
    ((⟨⟨"u", "n"⟩, 12345⟩ : PlayerPlayTicks).play_ticks : Int) = 12345 ∧
    ((⟨⟨"u", "n"⟩, 12345⟩ : PlayerVoteCount).vote_count : Int) = 12345 := by
  constructor
  · exact playTicks_voteCount_nonneg_input_preserved.1
      [("uuid", DbValue.vStr "u"), ("name", DbValue.vStr "n"), ("playtick", DbValue.vI32 12345)]
      ⟨⟨"u", "n"⟩, 12345⟩ 12345 (by rfl) (by norm_num) (by rfl)
  · exact playTicks_voteCount_nonneg_input_preserved.2
      [("uuid", DbValue.vStr "u"), ("name", DbValue.vStr "n"), ("p_vote", DbValue.vI32 12345)]
      ⟨⟨"u", "n"⟩, 12345⟩ 12345 (by rfl) (by norm_num) (by rfl)

/-! ### Claim C2: any single-row decoding failure fails the whole fetch -/

theorem tryGetStr_error_of_none {row : DbRow} {c : String}
    (h : findColumn row c = none) :
    tryGetStr row c = .error (.columnNotFound c) := by
  simp [tryGetStr, h]

theorem decode_error_of_no_uuid_lastQuit {row : DbRow}
    (h : findColumn row "uuid" = none) :
    decodePlayerLastQuit row = .error (.columnNotFound "uuid") := by
  simp [decodePlayerLastQuit, tryGetStr_error_of_none h, Except.bind, bind]

theorem decode_error_of_no_uuid_breakCount {row : DbRow}
    (h : findColumn row "uuid" = none) :
    decodePlayerBreakCount row = .error (.columnNotFound "uuid") := by
  simp [decodePlayerBreakCount, tryGetStr_error_of_none h, Except.bind, bind]

theorem decode_error_of_no_uuid_buildCount {row : DbRow}
    (h : findColumn row "uuid" = none) :
    decodePlayerBuildCount row = .error (.columnNotFound "uuid") := by
  simp [decodePlayerBuildCount, tryGetStr_error_of_none h, Except.bind, bind]

theorem decode_error_of_no_uuid_playTicks {row : DbRow}
    (h : findColumn row "uuid" = none) :
    decodePlayerPlayTicks row = .error (.columnNotFound "uuid") := by
  simp [decodePlayerPlayTicks, tryGetStr_error_of_none h, Except.bind, bind]

theorem decode_error_of_no_uuid_voteCount {row : DbRow}
    (h : findColumn row "uuid" = none) :
    decodePlayerVoteCount row = .error (.columnNotFound "uuid") := by
  simp [decodePlayerVoteCount, tryGetStr_error_of_none h, Except.bind, bind]

/-- C2: for every fetcher, a decoding failure on any one row of the store's
response makes the whole fetch return a single error (no partial sequence is
possible, the result type being all-or-nothing); in particular a row missing
the `uuid` column fails the entire fetch with a decoding error. -/
theorem fetch_all_or_nothing_on_row_error :
    (∀ (rows : List DbRow) (row : DbRow) (e : DecodeError), row ∈ rows →
        decodePlayerLastQuit row = .error e →
        ∃ e', fetchPlayerLastQuit rows = .error e') ∧
    (∀ (rows : List DbRow) (row : DbRow) (e : DecodeError), row ∈ rows →
        decodePlayerBreakCount row = .error e →
        ∃ e', fetchPlayerBreakCount rows = .error e') ∧
    (∀ (rows : List DbRow) (row : DbRow) (e : DecodeError), row ∈ rows →
        decodePlayerBuildCount row = .error e →
        ∃ e', fetchPlayerBuildCount rows = .error e') ∧
    (∀ (rows : List DbRow) (row : DbRow) (e : DecodeError), row ∈ rows →
        decodePlayerPlayTicks row = .error e →
        ∃ e', fetchPlayerPlayTicks rows = .error e') ∧
    (∀ (rows : List DbRow) (row : DbRow) (e : DecodeError), row ∈ rows →
        decodePlayerVoteCount row = .error e →
        ∃ e', fetchPlayerVoteCount rows = .error e') ∧
    (∀ (rows : List DbRow) (row : DbRow), row ∈ rows →
        findColumn row "uuid" = none →
        (∃ e', fetchPlayerLastQuit rows = .error e') ∧
        (∃ e', fetchPlayerBreakCount rows = .error e') ∧
        (∃ e', fetchPlayerBuildCount rows = .error e') ∧
        (∃ e', fetchPlayerPlayTicks rows = .error e') ∧
        (∃ e', fetchPlayerVoteCount rows = .error e')) := by
  refine ⟨fun rows row e hr he => tryMapAll_error_of_mem hr he,
          fun rows row e hr he => tryMapAll_error_of_mem hr he,
          fun rows row e hr he => tryMapAll_error_of_mem hr he,
          fun rows row e hr he => tryMapAll_error_of_mem hr he,
          fun rows row e hr he => tryMapAll_error_of_mem hr he,
          fun rows row hr hu => ?_⟩
  exact ⟨tryMapAll_error_of_mem hr (decode_error_of_no_uuid_lastQuit hu),
         tryMapAll_error_of_mem hr (decode_error_of_no_uuid_breakCount hu),
         tryMapAll_error_of_mem hr (decode_error_of_no_uuid_buildCount hu),
         tryMapAll_error_of_mem hr (decode_error_of_no_uuid_playTicks hu),
         tryMapAll_error_of_mem hr (decode_error_of_no_uuid_voteCount hu)⟩

/-- Witness for C2: a response whose single row lacks the `uuid` column makes
all five fetchers fail outright. -/
theorem fetch_all_or_nothing_on_row_error_witness :
    (∃ e', fetchPlayerLastQuit [[("name", DbValue.vStr "n")]] = .error e') ∧
    (∃ e', fetchPlayerBreakCount [[("name", DbValue.vStr "n")]] = .error e') ∧
    (∃ e', fetchPlayerBuildCount [[("name", DbValue.vStr "n")]] = .error e') ∧
    (∃ e', fetchPlayerPlayTicks [[("name", DbValue.vStr "n")]] = .error e') ∧
    (∃ e', fetchPlayerVoteCount [[("name", DbValue.vStr "n")]] = .error e') :=
  fetch_all_or_nothing_on_row_error.2.2.2.2.2
    [[("name", DbValue.vStr "n")]] [("name", DbValue.vStr "n")]
    (List.mem_singleton.mpr rfl) (by rfl)

/-! ### Claim C3: a successful fetch is a per-row map preserving order and
identity pairs -/

/-- C3: for every fetcher, a successful fetch returns one record per row, in
the store's returned order, and the record at each position carries the
`(uuid, name)` pair of the row at that position — no filtering, reordering,
deduplication, or truncation. -/
theorem fetch_preserves_length_and_identity_pairs :
    (∀ (rows : List DbRow) (out : List PlayerLastQuit),
        fetchPlayerLastQuit rows = .ok out →
        out.length = rows.length ∧
        List.Forall₂ (fun row rec => identityPreserved row rec.player) rows out) ∧
    (∀ (rows : List DbRow) (out : List PlayerBreakCount),
        fetchPlayerBreakCount rows = .ok out →
        out.length = rows.length ∧
        List.Forall₂ (fun row rec => identityPreserved row rec.player) rows out) ∧
    (∀ (rows : List DbRow) (out : List PlayerBuildCount),
        fetchPlayerBuildCount rows = .ok out →
        out.length = rows.length ∧
        List.Forall₂ (fun row rec => identityPreserved row rec.player) rows out) ∧
    (∀ (rows : List DbRow) (out : List PlayerPlayTicks),
        fetchPlayerPlayTicks rows = .ok out →
        out.length = rows.length ∧
        List.Forall₂ (fun row rec => identityPreserved row rec.player) rows out) ∧
    (∀ (rows : List DbRow) (out : List PlayerVoteCount),
        fetchPlayerVoteCount rows = .ok out →
        out.length = rows.length ∧
        List.Forall₂ (fun row rec => identityPreserved row rec.player) rows out) := by
  refine ⟨fun rows out h => ⟨tryMapAll_ok_length h, ?_⟩,
          fun rows out h => ⟨tryMapAll_ok_length h, ?_⟩,
          fun rows out h => ⟨tryMapAll_ok_length h, ?_⟩,
          fun rows out h => ⟨tryMapAll_ok_length h, ?_⟩,
          fun rows out h => ⟨tryMapAll_ok_length h, ?_⟩⟩
  · exact (tryMapAll_ok_forall₂ h).imp fun r a hra =>
      ⟨(decodePlayerLastQuit_ok hra).1, (decodePlayerLastQuit_ok hra).2.1⟩
  · exact (tryMapAll_ok_forall₂ h).imp fun r a hra =>
      ⟨(decodePlayerBreakCount_ok hra).1, (decodePlayerBreakCount_ok hra).2.1⟩
  · exact (tryMapAll_ok_forall₂ h).imp fun r a hra =>
      ⟨(decodePlayerBuildCount_ok hra).1, (decodePlayerBuildCount_ok hra).2.1⟩
  · exact (tryMapAll_ok_forall₂ h).imp fun r a hra =>
      ⟨(decodePlayerPlayTicks_ok hra).1, (decodePlayerPlayTicks_ok hra).2.1⟩
  · exact (tryMapAll_ok_forall₂ h).imp fun r a hra =>
      ⟨(decodePlayerVoteCount_ok hra).1, (decodePlayerVoteCount_ok hra).2.1⟩

/-- Witness for C3: on a concrete two-row response the play-ticks fetcher
returns two records whose identity pairs match the rows positionally. -/
theorem fetch_preserves_length_and_identity_pairs_witness :
    ([(⟨⟨"u1", "n1"⟩, 3⟩ : PlayerPlayTicks), ⟨⟨"u2", "n2"⟩, 5⟩].length =
        [sampleRow1, sampleRow2].length) ∧
    List.Forall₂ (fun row rec => identityPreserved row rec.player)
      [sampleRow1, sampleRow2]
      [(⟨⟨"u1", "n1"⟩, 3⟩ : PlayerPlayTicks), ⟨⟨"u2", "n2"⟩, 5⟩] :=
  fetch_preserves_length_and_identity_pairs.2.2.2.1
    [sampleRow1, sampleRow2]
    [⟨⟨"u1", "n1"⟩, 3⟩, ⟨⟨"u2", "n2"⟩, 5⟩] (by rfl)

/-! ### Facts about `f64::round` and the saturating cast -/

theorem roundHalfAwayFromZero_nonneg {q : ℚ} (h : 0 ≤ q) :
    0 ≤ roundHalfAwayFromZero q := by
  unfold roundHalfAwayFromZero
  rw [if_pos h]
  exact Int.le_floor.mpr (by push_cast; linarith)

theorem roundHalfAwayFromZero_dist_le_half (q : ℚ) :
    |(roundHalfAwayFromZero q : ℚ) - q| ≤ 1 / 2 := by
  unfold roundHalfAwayFromZero
  split
  · have h1 : ((⌊q + 1 / 2⌋ : ℤ) : ℚ) ≤ q + 1 / 2 := Int.floor_le _
    have h2 : q + 1 / 2 - 1 < ((⌊q + 1 / 2⌋ : ℤ) : ℚ) := Int.sub_one_lt_floor _
    rw [abs_le]
    constructor <;> linarith
  · have h1 : q - 1 / 2 ≤ ((⌈q - 1 / 2⌉ : ℤ) : ℚ) := Int.le_ceil _
    have h2 : ((⌈q - 1 / 2⌉ : ℤ) : ℚ) < q - 1 / 2 + 1 := Int.ceil_lt_add_one _
    rw [abs_le]
    constructor <;> linarith

theorem roundHalfAwayFromZero_is_nearest (q : ℚ) (n : ℤ) :
    |(roundHalfAwayFromZero q : ℚ) - q| ≤ |(n : ℚ) - q| := by
  by_cases hn : n = roundHalfAwayFromZero q
  · rw [hn]
  · have h1 : (1 : ℤ) ≤ |n - roundHalfAwayFromZero q| :=
      Int.one_le_abs (sub_ne_zero.mpr hn)
    have h1' : (1 : ℚ) ≤ |(n : ℚ) - (roundHalfAwayFromZero q : ℚ)| := by
      exact_mod_cast h1
    have h2 := roundHalfAwayFromZero_dist_le_half q
    have h3 : |(n : ℚ) - (roundHalfAwayFromZero q : ℚ)| ≤
        |(n : ℚ) - q| + |q - (roundHalfAwayFromZero q : ℚ)| := abs_sub_le _ _ _
    have h4 : |q - (roundHalfAwayFromZero q : ℚ)| =
        |(roundHalfAwayFromZero q : ℚ) - q| := abs_sub_comm _ _
    linarith

theorem buildCountCoercion_finite_in_range {q : ℚ} (h0 : 0 ≤ q)
    (hlt : roundHalfAwayFromZero q < 2 ^ 64) :
    (buildCountCoercion (F64.finite q) : ℤ) = roundHalfAwayFromZero q := by
  have hr : 0 ≤ roundHalfAwayFromZero q := roundHalfAwayFromZero_nonneg h0
  have hq64 : ((roundHalfAwayFromZero q : ℤ) : ℚ) < (2 : ℚ) ^ 64 := by
    exact_mod_cast hlt
  have hq0 : ¬ (((roundHalfAwayFromZero q : ℤ) : ℚ) < 0) := by
    rw [not_lt]
    exact_mod_cast hr
  simp only [buildCountCoercion, F64.round, F64.as_u64]
  rw [if_neg hq0, if_neg (not_le.mpr hq64), Int.floor_intCast]
  omega

theorem F64_as_u64_intCast (r : ℤ) (h0 : 0 ≤ r) (h64 : r < 2 ^ 64) :
    F64.as_u64 (F64.finite ((r : ℤ) : ℚ)) = r.toNat := by
  have hq0 : ¬ (((r : ℤ) : ℚ) < 0) := by
    rw [not_lt]
    exact_mod_cast h0
  have hq64 : ¬ ((2 : ℚ) ^ 64 ≤ ((r : ℤ) : ℚ)) := by
    rw [not_le]
    exact_mod_cast h64
  simp only [F64.as_u64]
  rw [if_neg hq0, if_neg hq64, Int.floor_intCast]

theorem roundHalfAwayFromZero_207_5 : roundHalfAwayFromZero (207 / 5) = 41 := by
  unfold roundHalfAwayFromZero
  rw [if_pos (by norm_num)]
  norm_num

theorem roundHalfAwayFromZero_83_2 : roundHalfAwayFromZero (83 / 2) = 42 := by
  unfold roundHalfAwayFromZero
  rw [if_pos (by norm_num)]
  norm_num

theorem roundHalfAwayFromZero_pow65 :
    roundHalfAwayFromZero ((2 : ℚ) ^ 65) = 36893488147419103232 := by
  unfold roundHalfAwayFromZero
  rw [if_pos (by norm_num)]
  norm_num

theorem roundHalfAwayFromZero_pow70 :
    roundHalfAwayFromZero ((2 : ℚ) ^ 70) = 1180591620717411303424 := by
  unfold roundHalfAwayFromZero
  rw [if_pos (by norm_num)]
  norm_num

theorem roundHalfAwayFromZero_neg_7_2 : roundHalfAwayFromZero (-7 / 2) = -4 := by
  unfold roundHalfAwayFromZero
  rw [if_neg (by norm_num), show ((-7 : ℚ) / 2 - 1 / 2) = ((-4 : ℤ) : ℚ) by norm_num,
    Int.ceil_intCast]

theorem buildCountCoercion_207_5 : buildCountCoercion (F64.finite (207 / 5)) = 41 := by
  simp only [buildCountCoercion, F64.round, roundHalfAwayFromZero_207_5]
  rw [F64_as_u64_intCast 41 (by norm_num) (by norm_num)]
  rfl

theorem buildCountCoercion_83_2 : buildCountCoercion (F64.finite (83 / 2)) = 42 := by
  simp only [buildCountCoercion, F64.round, roundHalfAwayFromZero_83_2]
  rw [F64_as_u64_intCast 42 (by norm_num) (by norm_num)]
  rfl

/-- Counterexample to C4 as stated: `2^65` is a non-negative finite double
(exactly representable), its nearest integer is `2^65` itself, yet the
coercion saturates to `2^64 - 1`, a strictly more distant integer. -/
theorem buildCount_nearest_integer_counterexample :
    buildCountCoercion (F64.finite ((2 : ℚ) ^ 65)) = 2 ^ 64 - 1 ∧
    ((buildCountCoercion (F64.finite ((2 : ℚ) ^ 65)) : ℚ)) ≠ (2 : ℚ) ^ 65 ∧
    |((2 ^ 65 : ℤ) : ℚ) - (2 : ℚ) ^ 65| <
      |((buildCountCoercion (F64.finite ((2 : ℚ) ^ 65)) : ℚ)) - (2 : ℚ) ^ 65| := by
  have hval : buildCountCoercion (F64.finite ((2 : ℚ) ^ 65)) = 2 ^ 64 - 1 := by
    simp only [buildCountCoercion, F64.round, roundHalfAwayFromZero_pow65, F64.as_u64]
    rw [if_neg (by norm_num), if_pos (by norm_num)]
  refine ⟨hval, ?_, ?_⟩ <;> rw [hval] <;> norm_num

/-- C4 (amended): for every non-negative finite double whose rounded value is
below 2^64, the build-count fetcher's metric is the rounded value, which is a
nearest integer to the input (ties away from zero); the spec's concrete
examples hold: 41.4 gives 41 and 41.5 gives 42.  (As stated the claim fails
for finite doubles at or above 2^64, where the cast saturates.) -/
theorem buildCount_rounds_to_nearest_in_range :
    (∀ (row : DbRow) (rec : PlayerBuildCount) (q : ℚ),
        tryGetF64 row "build_count" = .ok (F64.finite q) → 0 ≤ q →
        roundHalfAwayFromZero q < 2 ^ 64 →
        decodePlayerBuildCount row = .ok rec →
        (rec.build_count : ℤ) = roundHalfAwayFromZero q ∧
        ∀ n : ℤ, |((rec.build_count : ℚ)) - q| ≤ |(n : ℚ) - q|) ∧
    buildCountCoercion (F64.finite (207 / 5)) = 41 ∧
    buildCountCoercion (F64.finite (83 / 2)) = 42 := by
  refine ⟨?_, buildCountCoercion_207_5, buildCountCoercion_83_2⟩
  intro row rec q hq h0 hlt hdec
  rcases decodePlayerBuildCount_ok hdec with ⟨-, -, x, hx, hm⟩
  rw [hq] at hx
  cases hx
  have hz : (rec.build_count : ℤ) = roundHalfAwayFromZero q := by
    rw [hm]
    exact buildCountCoercion_finite_in_range h0 hlt
  refine ⟨hz, fun n => ?_⟩
  have hq' : ((rec.build_count : ℚ)) = ((roundHalfAwayFromZero q : ℤ) : ℚ) := by
    exact_mod_cast hz
  rw [hq']
  exact roundHalfAwayFromZero_is_nearest q n

/-- Witness for the amended C4: a concrete row whose `build_count` column
holds 41.4 decodes to the metric 41, the nearest integer. -/
theorem buildCount_rounds_to_nearest_in_range_witness :
    (((⟨⟨"u", "n"⟩, 41⟩ : PlayerBuildCount).build_count : ℤ) =
        roundHalfAwayFromZero (207 / 5)) ∧
    ∀ n : ℤ, |(((⟨⟨"u", "n"⟩, 41⟩ : PlayerBuildCount).build_count : ℚ)) - 207 / 5| ≤
      |(n : ℚ) - 207 / 5| := by
  have hdec : decodePlayerBuildCount
      [("uuid", DbValue.vStr "u"), ("name", DbValue.vStr "n"),
       ("build_count", DbValue.vF64 (F64.finite (207 / 5)))] =
      .ok ⟨⟨"u", "n"⟩, 41⟩ := by
    rw [show decodePlayerBuildCount
        [("uuid", DbValue.vStr "u"), ("name", DbValue.vStr "n"),
         ("build_count", DbValue.vF64 (F64.finite (207 / 5)))] =
        Except.ok ⟨⟨"u", "n"⟩, buildCountCoercion (F64.finite (207 / 5))⟩ from rfl,
      buildCountCoercion_207_5]
  exact buildCount_rounds_to_nearest_in_range.1
    [("uuid", DbValue.vStr "u"), ("name", DbValue.vStr "n"),
     ("build_count", DbValue.vF64 (F64.finite (207 / 5)))]
    ⟨⟨"u", "n"⟩, 41⟩ (207 / 5) (by rfl) (by norm_num)
    (by rw [roundHalfAwayFromZero_207_5]; norm_num) hdec

/-- C5: the float-to-unsigned cast applied after rounding saturates — any
double rounding to a negative value gives 0, NaN and negative infinity give 0,
any double rounding to at least 2^64 gives `u64::MAX`, and positive infinity
gives `u64::MAX`; the cast is total (never wraps, never traps). -/
theorem buildCount_cast_saturates :
    (∀ q : ℚ, roundHalfAwayFromZero q < 0 → buildCountCoercion (F64.finite q) = 0) ∧
    (∀ q : ℚ, 2 ^ 64 ≤ roundHalfAwayFromZero q →
        buildCountCoercion (F64.finite q) = 2 ^ 64 - 1) ∧
    buildCountCoercion F64.nan = 0 ∧
    buildCountCoercion F64.negInf = 0 ∧
    buildCountCoercion F64.posInf = 2 ^ 64 - 1 := by
  refine ⟨fun q h => ?_, fun q h => ?_, rfl, rfl, rfl⟩
  · simp only [buildCountCoercion, F64.round, F64.as_u64]
    rw [if_pos (by exact_mod_cast h)]
  · simp only [buildCountCoercion, F64.round, F64.as_u64]
    rw [if_neg (by rw [not_lt]; exact_mod_cast (by omega : (0 : ℤ) ≤ roundHalfAwayFromZero q)),
      if_pos (by exact_mod_cast h)]

/-- Witness for C5: -3.5 rounds to -4 and saturates to 0, and 2^70 rounds
above 2^64 and saturates to `u64::MAX`. -/
theorem buildCount_cast_saturates_witness :
    buildCountCoercion (F64.finite (-7 / 2)) = 0 ∧
    buildCountCoercion (F64.finite ((2 : ℚ) ^ 70)) = 2 ^ 64 - 1 :=
  ⟨buildCount_cast_saturates.1 (-7 / 2) (by rw [roundHalfAwayFromZero_neg_7_2]; norm_num),
   buildCount_cast_saturates.2.1 ((2 : ℚ) ^ 70)
     (by rw [roundHalfAwayFromZero_pow70]; norm_num)⟩

/-! ### Claim C7: the last-quit timestamp re-encodes as valid RFC 3339 text -/

theorem digitChar_isDigit (n : Nat) : (digitChar n).isDigit = true := by
  have h : n % 10 < 10 := Nat.mod_lt n (by norm_num)
  unfold digitChar
  generalize n % 10 = k at h ⊢
  interval_cases k <;> rfl

theorem digitVal_digitChar (n : Nat) : digitVal (digitChar n) = n % 10 := by
  have h : n % 10 < 10 := Nat.mod_lt n (by norm_num)
  unfold digitVal digitChar
  generalize n % 10 = k at h ⊢
  interval_cases k <;> rfl

theorem to_rfc3339_data (t : DateTimeUtc) :
    (DateTimeUtc.to_rfc3339 t).data =
      digitChar (t.year / 1000) :: digitChar (t.year / 100) ::
      digitChar (t.year / 10) :: digitChar t.year ::
      '-' :: digitChar (t.month / 10) :: digitChar t.month ::
      '-' :: digitChar (t.day / 10) :: digitChar t.day ::
      'T' :: digitChar (t.hour / 10) :: digitChar t.hour ::
      ':' :: digitChar (t.minute / 10) :: digitChar t.minute ::
      ':' :: digitChar (t.second / 10) :: digitChar t.second ::
      ['+', '0', '0', ':', '0', '0'] := rfl

theorem to_rfc3339_valid {t : DateTimeUtc} (h : t.isValid = true) :
    isRfc3339DateTime t.to_rfc3339 = true := by
  unfold DateTimeUtc.isValid at h
  simp only [Bool.and_eq_true, decide_eq_true_eq] at h
  obtain ⟨⟨⟨⟨⟨⟨⟨hy, hmo1⟩, hmo2⟩, hd1⟩, hd2⟩, hh⟩, hmi⟩, hs⟩ := h
  have hd31 : daysInMonth t.year t.month ≤ 31 := by
    unfold daysInMonth
    split
    · split <;> norm_num
    · split <;> norm_num
  have hM : 10 * (t.month / 10 % 10) + t.month % 10 = t.month := by omega
  have hD : 10 * (t.day / 10 % 10) + t.day % 10 = t.day := by omega
  have hY : 1000 * (t.year / 1000 % 10) + 100 * (t.year / 100 % 10) +
      10 * (t.year / 10 % 10) + t.year % 10 = t.year := by omega
  unfold isRfc3339DateTime
  rw [to_rfc3339_data]
  simp only [digitChar_isDigit, digitVal_digitChar, Bool.and_eq_true,
    decide_eq_true_eq, isRfc3339Offset, Bool.true_and, Bool.and_true]
  rw [hM, hD, hY]
  exact ⟨⟨⟨⟨⟨⟨⟨hmo1, hmo2⟩, hd1⟩, hd2⟩, by omega⟩, by omega⟩, by omega⟩, by decide⟩

/-- C7: every row decoded by the last-quit fetcher carries the stored UTC
timestamp re-encoded as a valid RFC 3339 date-time string ending in the
explicit numeric timezone offset `+00:00`. -/
theorem lastQuit_reencodes_valid_rfc3339 :
    ∀ (row : DbRow) (rec : PlayerLastQuit) (t : DateTimeUtc),
      tryGetDateTime row "lastquit" = .ok t → t.isValid = true →
      decodePlayerLastQuit row = .ok rec →
      isRfc3339DateTime rec.rfc_3339_date_time = true ∧
      ∃ p, rec.rfc_3339_date_time = p ++ "+00:00" := by
  intro row rec t ht hv hdec
  rcases decodePlayerLastQuit_ok hdec with ⟨-, -, t', ht', hr⟩
  rw [ht] at ht'
  cases ht'
  rw [hr]
  refine ⟨to_rfc3339_valid hv,
    String.mk
      [digitChar (t.year / 1000), digitChar (t.year / 100),
       digitChar (t.year / 10), digitChar t.year,
       '-', digitChar (t.month / 10), digitChar t.month,
       '-', digitChar (t.day / 10), digitChar t.day,
       'T', digitChar (t.hour / 10), digitChar t.hour,
       ':', digitChar (t.minute / 10), digitChar t.minute,
       ':', digitChar (t.second / 10), digitChar t.second], rfl⟩

/-- Witness for C7: a row storing 2020-01-02 03:04:05 UTC decodes to the
record text `2020-01-02T03:04:05+00:00`, which passes the RFC 3339 check. -/
theorem lastQuit_reencodes_valid_rfc3339_witness :
    isRfc3339DateTime
      (⟨⟨"u", "n"⟩, "2020-01-02T03:04:05+00:00"⟩ : PlayerLastQuit).rfc_3339_date_time
      = true ∧
    ∃ p, (⟨⟨"u", "n"⟩, "2020-01-02T03:04:05+00:00"⟩ :
      PlayerLastQuit).rfc_3339_date_time = p ++ "+00:00" :=
  lastQuit_reencodes_valid_rfc3339
    [("uuid", DbValue.vStr "u"), ("name", DbValue.vStr "n"),
     ("lastquit", DbValue.vDateTime ⟨2020, 1, 2, 3, 4, 5⟩)]
    ⟨⟨"u", "n"⟩, "2020-01-02T03:04:05+00:00"⟩ ⟨2020, 1, 2, 3, 4, 5⟩
    (by rfl) (by decide) (by rfl)

/-! ### Claim C8: the break-count metric passes through unchanged -/

/-- C8: the break-count fetcher applies the identity coercion — the record's
metric equals the 64-bit integer value of the `totalbreaknum` column. -/
theorem breakCount_metric_identity :
    ∀ (row : DbRow) (rec : PlayerBreakCount) (n : Nat),
      tryGetU64 row "totalbreaknum" = .ok n →
      decodePlayerBreakCount row = .ok rec →
      rec.break_count = n := by
  intro row rec n hn hdec
  rcases decodePlayerBreakCount_ok hdec with ⟨-, -, hm⟩
  rw [hn] at hm
  exact (Except.ok.inj hm).symm

/-- Witness for C8: a concrete row whose `totalbreaknum` column holds 7
decodes to the metric 7. -/
theorem breakCount_metric_identity_witness :
    (⟨⟨"u", "n"⟩, 7⟩ : PlayerBreakCount).break_count = 7 :=
  breakCount_metric_identity
    [("uuid", DbValue.vStr "u"), ("name", DbValue.vStr "n"),
     ("totalbreaknum", DbValue.vU64 7)]
    ⟨⟨"u", "n"⟩, 7⟩ 7 (by rfl) (by rfl)

/-! ### Claims C9 and C10: pool construction, stateless fetch invocations -/

/-- C9: for every configuration the created pool is capped at exactly 5
simultaneous connections, its URI is built from exactly the configured user,
password, host, port and database name, and each of the five data-source
constructors binds precisely that pool. -/
theorem pool_capped_at_five_and_uri_from_config :
    ∀ config : SourceDatabaseConfig,
      (create_connection_pool config).max_connections = 5 ∧
      (create_connection_pool config).uri =
        "mysql://" ++ config.user ++ ":" ++ config.password ++ "@" ++
          config.host ++ ":" ++ toString config.port ++ "/" ++
          config.database_name ∧
      (last_quit_data_source config).connection_pool =
        create_connection_pool config ∧
      (break_count_data_source config).connection_pool =
        create_connection_pool config ∧
      (build_count_data_source config).connection_pool =
        create_connection_pool config ∧
      (play_ticks_data_source config).connection_pool =
        create_connection_pool config ∧
      (vote_count_data_source config).connection_pool =
        create_connection_pool config :=
  fun _ => ⟨rfl, rfl, rfl, rfl, rfl, rfl, rfl⟩

/-- C10: fetch invocations are stateless and deterministic in the store's
response — a run of calls leaves the data source exactly as constructed, each
call's output is a function of that call's response alone, and any two calls
of the run whose responses coincide produce equal outputs (no caching or
diffing between calls). -/
theorem fetch_stateless_and_deterministic :
    ∀ {α : Type} (decode : DbRow → Except DecodeError α)
      (ds : MySqlDataSource) (resps : List (List DbRow)),
      (runFetchCalls decode ds resps).2 = ds ∧
      (runFetchCalls decode ds resps).1 = resps.map (tryMapAll decode) ∧
      ∀ i j : Nat, resps[i]? = resps[j]? →
        ((runFetchCalls decode ds resps).1)[i]? =
          ((runFetchCalls decode ds resps).1)[j]? := by
  intro α decode ds resps
  have hrun : ∀ ds', runFetchCalls decode ds' resps =
      (resps.map (tryMapAll decode), ds') := by
    induction resps with
    | nil => intro ds'; rfl
    | cons r rs ih =>
      intro ds'
      simp [runFetchCalls, fetchInvocation, ih]
  refine ⟨by rw [hrun], by rw [hrun], ?_⟩
  intro i j hij
  rw [hrun]
  simp only [List.getElem?_map, hij]

/-- Witness for C10: running the last-quit fetcher twice over the same
concrete response leaves the data source unchanged and yields equal outputs
for the two calls. -/
theorem fetch_stateless_and_deterministic_witness :
    (runFetchCalls decodePlayerLastQuit sampleDataSource
        [[sampleRow1], [sampleRow1]]).2 = sampleDataSource ∧
    ((runFetchCalls decodePlayerLastQuit sampleDataSource
        [[sampleRow1], [sampleRow1]]).1)[0]? =
      ((runFetchCalls decodePlayerLastQuit sampleDataSource
        [[sampleRow1], [sampleRow1]]).1)[1]? :=
  ⟨(fetch_stateless_and_deterministic decodePlayerLastQuit sampleDataSource
      [[sampleRow1], [sampleRow1]]).1,
   (fetch_stateless_and_deterministic decodePlayerLastQuit sampleDataSource
      [[sampleRow1], [sampleRow1]]).2.2 0 1 (by rfl)⟩
